import Mathlib

/-!
Verification of the rusty-spider crawl orchestration engine.

Shallow embedding of the Rust sources:
  * `src/crawler/seed/crawl_context.rs`   — the per-seed frontier (`CrawlContext`)
  * `src/crawler/seed/seed_crawler.rs`    — the per-seed crawl loop (`SeedCrawler::crawl`)
  * `src/crawler/robots/robots_txt_source.rs` — robots.txt loading
  * `src/crawler/multi_crawler.rs`        — the multi-seed scheduler
  * `src/console/console_progress_reporter.rs` — the telemetry display table

Rust `HashSet<Url>` fields are embedded as duplicate-free `List Url`
with set-semantic insert/remove; the arbitrary iteration order of
`HashSet::iter().next()` is embedded by letting `pop_url_to_crawl` take
the index of the chosen element.  Async effects (event emission, sleeping)
are embedded as an explicit event trace, and the cooperative shutdown flag
as a boolean stream sampled at each atomic load.
-/

namespace RustySpider

/-- Embeds `url::Url` restricted to the components this program touches:
scheme, host, path, query and fragment. -/
structure Url where
  scheme : String
  host : String
  path : String
  query : Option String
  fragment : Option String
deriving DecidableEq, Repr

/-- Embeds `CrawlContext` (src/crawler/seed/crawl_context.rs): the two
`HashSet<Url>` fields as duplicate-free lists. -/
structure CrawlContext where
  urls_to_crawl : List Url
  urls_already_crawled : List Url
deriving DecidableEq, Repr

/-- `CrawlContext::new`. -/
def CrawlContext.new : CrawlContext := ⟨[], []⟩

/-- `CrawlContext::strip_url`: clears the fragment and query components. -/
def strip_url (url : Url) : Url := { url with fragment := none, query := none }

/-- Set-semantic insertion into a list embedding a `HashSet`. -/
def listInsert (l : List Url) (u : Url) : List Url := if u ∈ l then l else l ++ [u]

/-- Set-semantic removal from a list embedding a `HashSet`. -/
def listRemove (l : List Url) (u : Url) : List Url := l.filter (fun v => decide (v ≠ u))

/-- `CrawlContext::add_url_to_crawl`: strips the URL, and inserts it into
`urls_to_crawl` unless it is already in `urls_already_crawled`. -/
def CrawlContext.add_url_to_crawl (ctx : CrawlContext) (url : Url) : CrawlContext :=
  let stripped_url := strip_url url
  if stripped_url ∈ ctx.urls_already_crawled then ctx
  else { ctx with urls_to_crawl := listInsert ctx.urls_to_crawl stripped_url }

/-- `CrawlContext::add_urls_to_crawl`: adds each URL in order. -/
def CrawlContext.add_urls_to_crawl (ctx : CrawlContext) (urls : List Url) : CrawlContext :=
  urls.foldl CrawlContext.add_url_to_crawl ctx

/-- `CrawlContext::pop_url_to_crawl`: removes and returns some element of
`urls_to_crawl`.  The `HashSet` iteration order is arbitrary, so the choice
is embedded as an index `k` (taken mod the length when non-empty). -/
def CrawlContext.pop_url_to_crawl (ctx : CrawlContext) (k : Nat) :
    Option Url × CrawlContext :=
  match ctx.urls_to_crawl.get? (k % ctx.urls_to_crawl.length) with
  | none => (none, ctx)
  | some u => (some u, { ctx with urls_to_crawl := listRemove ctx.urls_to_crawl u })

/-- `CrawlContext::mark_url_as_crawled`: strips the URL, removes it from
`urls_to_crawl` and inserts it into `urls_already_crawled`. -/
def CrawlContext.mark_url_as_crawled (ctx : CrawlContext) (url : Url) : CrawlContext :=
  let stripped_url := strip_url url
  { urls_to_crawl := listRemove ctx.urls_to_crawl stripped_url,
    urls_already_crawled := listInsert ctx.urls_already_crawled stripped_url }

/-- `CrawlContext::is_crawling_complete`. -/
def CrawlContext.is_crawling_complete (ctx : CrawlContext) : Bool :=
  ctx.urls_to_crawl.isEmpty

/-- `CrawlContext::progress`: `(pending count, visited count)`. -/
def CrawlContext.progress (ctx : CrawlContext) : Nat × Nat :=
  (ctx.urls_to_crawl.length, ctx.urls_already_crawled.length)

/-- One frontier operation, as in the `CrawlContext` public interface.
`pop k` carries the arbitrary `HashSet` iteration choice. -/
inductive FrontierOp
  | add (u : Url)
  | addMany (us : List Url)
  | pop (k : Nat)
  | mark (u : Url)
deriving DecidableEq, Repr

/-- Applies one frontier operation, returning the new context and the URL
returned by `pop_url_to_crawl` when the operation is a pop. -/
def applyOp (ctx : CrawlContext) : FrontierOp → CrawlContext × Option Url
  | .add u => (ctx.add_url_to_crawl u, none)
  | .addMany us => (ctx.add_urls_to_crawl us, none)
  | .pop k =>
      let r := ctx.pop_url_to_crawl k
      (r.2, r.1)
  | .mark u => (ctx.mark_url_as_crawled u, none)

/-- Runs a sequence of frontier operations, collecting every URL returned
by a pop. -/
def runOps (ctx : CrawlContext) : List FrontierOp → CrawlContext × List Url
  | [] => (ctx, [])
  | op :: ops =>
      let s := applyOp ctx op
      let r := runOps s.1 ops
      (r.1, s.2.toList ++ r.2)

/-- Embeds `CrawlerState` (src/console/crawler_state.rs): {Crawling, Paused}. -/
inductive CrawlerState
  | crawling
  | paused
deriving DecidableEq, Repr

/-- Embeds `PageSummary` (src/crawler/page_summary.rs). -/
structure PageSummary where
  url : Url
  status_code : Nat
  content_type : String
  title : String
  num_outgoing_links : Nat
deriving DecidableEq, Repr

/-- `PageSummary::from_status_code`: the URL and status with empty
content type, empty title and zero outgoing links. -/
def PageSummary.from_status_code (url : Url) (status_code : Nat) : PageSummary :=
  ⟨url, status_code, "", "", 0⟩

/-- Embeds `CrawlSummary` (src/crawler/crawl_summary.rs). -/
structure CrawlSummary where
  crawl_summaries : List PageSummary
deriving DecidableEq, Repr

/-- Embeds `CrawlResponse` (src/crawler/crawl_response.rs): what
`PageCrawler::crawl` returns on success. -/
structure CrawlResponse where
  url : Url
  status_code : Nat
  content_type : String
  title : String
  outgoing_links : List Url
  internal_links : List Url
deriving DecidableEq, Repr

/-- Embeds `CrawlError` (src/crawler/crawl_error.rs).  The non-HTTP
variants carry their rendered message. -/
inductive CrawlError
  | httpError (status_code : Nat)
  | anyError (msg : String)
  | urlParseError (msg : String)
  | reqwestError (msg : String)
  | mimeParseError (msg : String)
deriving DecidableEq, Repr

/-- The `Display` rendering of a `CrawlError` (via thiserror): the HTTP
variant has a fixed format, the others are transparent. -/
def CrawlError.message : CrawlError → String
  | .httpError status_code => "HTTP Error Status Code = " ++ toString status_code
  | .anyError msg => msg
  | .urlParseError msg => msg
  | .reqwestError msg => msg
  | .mimeParseError msg => msg

/-- Embeds the private `PageCrawlOutput` enum of
src/crawler/seed/seed_crawler.rs. -/
inductive PageCrawlOutput
  | noMoreUrlsToCrawl
  | deniedByRobotsTxt (url : Url)
  | httpNotFound (url : Url)
  | httpError (url : Url) (status_code : Nat)
  | success (page_summary : PageSummary)
deriving DecidableEq, Repr

/-- One observable action of a seed crawl: the `ProgressReporter` calls of
`SeedCrawler::crawl` plus the pacing sleep, in program order. -/
inductive CrawlEvent
  | begin
  | progressUpdate (num_urls_to_crawl num_urls_crawled : Nat)
  | progressMessage (message : String)
  | stateChanged (state : CrawlerState)
  | sleepFor (ms : Nat)
  | finish
deriving DecidableEq, Repr

/-- `reqwest::StatusCode::is_success`: 2xx. -/
def isSuccessStatus (status : Nat) : Bool := 200 ≤ status && status < 300

/-- An HTTP response as far as robots.txt loading consumes it. -/
structure HttpResponse where
  status : Nat
  body : String
deriving DecidableEq, Repr

/-- Embeds `RobotsTxtSource` (src/crawler/robots/robots_txt_source.rs). -/
structure RobotsTxtSource where
  content : String
  agent : String
deriving DecidableEq, Repr

/-- `RobotsTxtSource::load_from_url`: the `reqwest::get` round trip for
`/robots.txt` is embedded as its outcome `response` (transport error or a
status/body).  A non-success status yields the empty-content source on 404
and an error otherwise; a success status yields the body as content. -/
def RobotsTxtSource.load_from_url (response : Except String HttpResponse)
    (agent : String) : Except String RobotsTxtSource :=
  match response with
  | .error e => .error e
  | .ok r =>
      if !isSuccessStatus r.status then
        if r.status = 404 then .ok ⟨"", agent⟩
        else .error "An error occurred fetching robots.txt"
      else .ok ⟨r.body, agent⟩

/-- Splits a character list at newlines. -/
def splitOnNewline (cs : List Char) : List (List Char) :=
  match cs with
  | [] => [[]]
  | c :: rest =>
      let r := splitOnNewline rest
      if c = '\n' then [] :: r
      else
        match r with
        | [] => [[c]]
        | l :: ls => (c :: l) :: ls

/-- Strips leading and trailing whitespace from a character list. -/
def trimChars (cs : List Char) : List Char :=
  ((cs.dropWhile Char.isWhitespace).reverse.dropWhile Char.isWhitespace).reverse

/-- Whether the first list starts with the second. -/
def listStartsWith : List Char → List Char → Bool
  | _, [] => true
  | [], _ :: _ => false
  | c :: cs, d :: ds => c = d && listStartsWith cs ds

/-- Modelled from the spec: robots rule evaluation is performed by the
external robots_txt crate (`Robots::from_str_lossy`, `SimpleMatcher`),
whose code is not part of this repository.  Per the spec a robots policy
is "the allow/deny rule set for a given crawler agent derived from a
host's robots.txt"; we model the compiled rule set as the non-empty
`Disallow:` prefixes of the text (agent sectioning not modelled, one
agent in play). -/
def parseDisallowRules (content : String) : List String :=
  ((splitOnNewline content.toList).filterMap (fun line =>
    let line := trimChars line
    if listStartsWith line "Disallow:".toList then
      some (String.mk (trimChars (line.drop 9)))
    else none)).filter (fun r => !r.toList.isEmpty)

/-- Modelled from the spec: `SimpleMatcher::check_path` of the robots_txt
crate. A path is allowed iff no disallow rule prefixes it; with an empty
rule set every path is allowed ("a missing robots.txt (404) yields an
allow-all policy"). -/
def check_path (rules : List String) (path : String) : Bool :=
  rules.all (fun r => !(listStartsWith path.toList r.toList))

/-- Embeds `CrawlerConfig` (src/crawler/crawler_config.rs); the `f64` rate
is embedded as a rational. -/
structure CrawlerConfig where
  max_pages : Nat
  max_depth : Nat
  requests_per_second : Option ℚ
deriving DecidableEq, Repr

/-- The crawl-delay computation of `SeedCrawler::crawl`:
`(1000.0 / requests_per_second) as u64` milliseconds (the cast truncates,
saturating at zero below zero). -/
def crawlDelayOf (config : CrawlerConfig) : Option Nat :=
  config.requests_per_second.map (fun r => (⌊(1000 : ℚ) / r⌋).toNat)

/-- The `Display` rendering of a URL, used in the "Crawling {url}"
progress message. -/
def Url.render (u : Url) : String :=
  u.scheme ++ "://" ++ u.host ++ u.path ++
    (match u.query with | none => "" | some q => "?" ++ q) ++
    (match u.fragment with | none => "" | some f => "#" ++ f)

/-- Embeds `SeedCrawler::crawl_next_url`.  The page fetch
(`PageCrawler::crawl`) is embedded as the oracle `fetch`; the robots
matcher as the predicate `check`.  Returns the events emitted, the
updated context, and the output (`Err` embeds the `anyhow` error the
Rust `_` arm produces). -/
def crawl_next_url (check : String → Bool)
    (fetch : Url → Except CrawlError CrawlResponse) (ctx : CrawlContext) :
    List CrawlEvent × CrawlContext × Except String PageCrawlOutput :=
  let popped := ctx.pop_url_to_crawl 0
  match popped.1 with
  | none => ([], popped.2, .ok .noMoreUrlsToCrawl)
  | some url_to_crawl =>
      let ctx := popped.2.mark_url_as_crawled url_to_crawl
      if !check url_to_crawl.path then
        ([], ctx, .ok (.deniedByRobotsTxt url_to_crawl))
      else
        let events := [CrawlEvent.progressMessage ("Crawling " ++ url_to_crawl.render)]
        match fetch url_to_crawl with
        | .ok crawl_response =>
            let ctx := ctx.add_urls_to_crawl crawl_response.internal_links
            (events, ctx, .ok (.success ⟨crawl_response.url, crawl_response.status_code,
              crawl_response.content_type, crawl_response.title,
              crawl_response.outgoing_links.length⟩))
        | .error e =>
            match e with
            | .httpError status_code =>
                if status_code = 404 then (events, ctx, .ok (.httpNotFound url_to_crawl))
                else (events, ctx, .ok (.httpError url_to_crawl status_code))
            | e => (events, ctx, .error ("Crawl error: " ++ e.message))

/-- The `match output` in the loop body of `SeedCrawler::crawl`: which
`PageSummary`, if any, is recorded for a `PageCrawlOutput`. -/
def outputToSummary : PageCrawlOutput → Option PageSummary
  | .success page_summary => some page_summary
  | .httpNotFound url => some (PageSummary.from_status_code url 404)
  | .httpError url status_code => some (PageSummary.from_status_code url status_code)
  | .noMoreUrlsToCrawl => none
  | .deniedByRobotsTxt url => some (PageSummary.from_status_code url 403)

/-- Embeds the `while` loop of `SeedCrawler::crawl`.  `shutdown n` is the
value of the n-th atomic load of the shutdown flag; `fuel` bounds the
number of iterations (running out of fuel is reported as an error so that
no theorem can mistake a truncated run for a completed one). -/
def crawlLoop (check : String → Bool)
    (fetch : Url → Except CrawlError CrawlResponse) (shutdown : Nat → Bool)
    (crawl_delay : Option Nat) :
    Nat → Nat → CrawlContext → List PageSummary →
      List CrawlEvent × Except String (List PageSummary)
  | 0, sd, ctx, summaries =>
      if shutdown sd then ([], .ok summaries)
      else if ctx.is_crawling_complete then ([], .ok summaries)
      else ([], .error "out of fuel")
  | fuel + 1, sd, ctx, summaries =>
      if shutdown sd then ([], .ok summaries)
      else if ctx.is_crawling_complete then ([], .ok summaries)
      else
        let ev1 := CrawlEvent.progressUpdate ctx.progress.1 ctx.progress.2
        let step := crawl_next_url check fetch ctx
        match step.2.2 with
        | .error e => (ev1 :: step.1, .error e)
        | .ok output =>
            let summaries := summaries ++ (outputToSummary output).toList
            let ctx := step.2.1
            match crawl_delay with
            | none =>
                let rest := crawlLoop check fetch shutdown none fuel (sd + 1) ctx summaries
                (ev1 :: step.1 ++ rest.1, rest.2)
            | some d =>
                if ctx.is_crawling_complete then
                  let rest :=
                    crawlLoop check fetch shutdown (some d) fuel (sd + 1) ctx summaries
                  (ev1 :: step.1 ++ rest.1, rest.2)
                else if shutdown (sd + 1) then
                  (ev1 :: step.1, .ok summaries)
                else
                  let rest :=
                    crawlLoop check fetch shutdown (some d) fuel (sd + 2) ctx summaries
                  (ev1 :: step.1 ++
                    ([CrawlEvent.stateChanged .paused, CrawlEvent.sleepFor d,
                      CrawlEvent.stateChanged .crawling] ++ rest.1), rest.2)

/-- Embeds `SeedCrawler::crawl`: emit Begin, compute the crawl delay,
load the robots policy (propagating failure), seed the frontier, emit
`StateChanged(Crawling)`, run the loop, emit End and return the summary
on success; a loop error propagates without the End event. -/
def crawl (fetch : Url → Except CrawlError CrawlResponse) (shutdown : Nat → Bool)
    (seed : Url) (robots_response : Except String HttpResponse) (agent : String)
    (config : CrawlerConfig) (fuel : Nat) :
    List CrawlEvent × Except String CrawlSummary :=
  let events := [CrawlEvent.begin]
  let crawl_delay := crawlDelayOf config
  match RobotsTxtSource.load_from_url robots_response agent with
  | .error e => (events, .error e)
  | .ok robots_txt_source =>
      let rules := parseDisallowRules robots_txt_source.content
      let crawl_context := CrawlContext.new.add_url_to_crawl seed
      let events := events ++ [CrawlEvent.stateChanged .crawling]
      let loopResult :=
        crawlLoop (fun p => check_path rules p) fetch shutdown crawl_delay fuel 0
          crawl_context []
      match loopResult.2 with
      | .error e => (events ++ loopResult.1, .error e)
      | .ok summaries => (events ++ loopResult.1 ++ [CrawlEvent.finish], .ok ⟨summaries⟩)

/-- The summaries of the tasks that completed successfully:
`task_result.ok().and_then(|res| res.ok())` filter-mapped over the joined
tasks (`none` embeds a task that failed to join). -/
def successfulSummaries (task_results : List (Option (Except String CrawlSummary))) :
    List CrawlSummary :=
  task_results.filterMap (fun t => t.bind (fun r =>
    match r with
    | .ok s => some s
    | .error _ => none))

/-- Embeds the result collection of `MultiCrawler::run`
(src/crawler/multi_crawler.rs): `join_all` yields one task result per
seed, in seed order; each spawned task returns what `SeedCrawler::crawl`
returned for its seed.  `run` keeps the successful summaries and itself
returns `Ok`. -/
def MultiCrawler.run (task_results : List (Option (Except String CrawlSummary))) :
    Except String (List CrawlSummary) :=
  .ok (successfulSummaries task_results)

/-- Embeds `CrawlerInfo` (src/console/console_progress_reporter.rs). -/
structure CrawlerInfo where
  index : Nat
  url : Url
  num_urls_to_crawl : Nat
  num_urls_crawled : Nat
  state : CrawlerState
  message : Option String
deriving DecidableEq, Repr

/-- Embeds `CrawlerProcessEvent` (src/console/crawler_progress_event.rs). -/
inductive CrawlerProcessEvent
  | begin (crawler_index : Nat) (url : Url)
  | progressUpdate (crawler_index num_urls_to_crawl num_urls_crawled : Nat)
  | progressMessage (crawler_index : Nat) (message : String)
  | crawlerStateChanged (crawler_index : Nat) (state : CrawlerState)
  | finish (crawler_index : Nat)
deriving DecidableEq, Repr

/-- The display table `HashMap<usize, CrawlerInfo>` embedded as an
association list. `insert` replaces any entry with the same key. -/
def mapInsert (m : List (Nat × CrawlerInfo)) (k : Nat) (v : CrawlerInfo) :
    List (Nat × CrawlerInfo) :=
  (k, v) :: m.filter (fun p => decide (p.1 ≠ k))

/-- `HashMap::remove`. -/
def mapRemove (m : List (Nat × CrawlerInfo)) (k : Nat) : List (Nat × CrawlerInfo) :=
  m.filter (fun p => decide (p.1 ≠ k))

/-- `HashMap::get`. -/
def mapGet (m : List (Nat × CrawlerInfo)) (k : Nat) : Option CrawlerInfo :=
  (m.find? (fun p => decide (p.1 = k))).map Prod.snd

/-- `HashMap::get_mut` followed by a mutation: applies `f` to the entry
with key `k` when present, leaving everything else unchanged. -/
def mapUpdate (m : List (Nat × CrawlerInfo)) (k : Nat) (f : CrawlerInfo → CrawlerInfo) :
    List (Nat × CrawlerInfo) :=
  m.map (fun p => if p.1 = k then (p.1, f p.2) else p)

/-- Embeds `ConsoleProcessReporter::handle_event`
(src/console/console_progress_reporter.rs) acting on the display table. -/
def handle_event (event : CrawlerProcessEvent) (crawlers : List (Nat × CrawlerInfo)) :
    List (Nat × CrawlerInfo) :=
  match event with
  | .begin crawler_index url =>
      mapInsert crawlers crawler_index
        ⟨crawler_index, url, 0, 0, .paused, none⟩
  | .progressUpdate crawler_index num_urls_to_crawl num_urls_crawled =>
      mapUpdate crawlers crawler_index (fun ci =>
        { ci with num_urls_crawled := num_urls_crawled,
                  num_urls_to_crawl := num_urls_to_crawl })
  | .progressMessage crawler_index message =>
      mapUpdate crawlers crawler_index (fun ci => { ci with message := some message })
  | .crawlerStateChanged crawler_index state =>
      mapUpdate crawlers crawler_index (fun ci => { ci with state := state })
  | .finish crawler_index => mapRemove crawlers crawler_index

/-- The frontier invariant: pending and visited are disjoint. -/
def FrontierInv (ctx : CrawlContext) : Prop :=
  ∀ u, u ∈ ctx.urls_to_crawl → u ∉ ctx.urls_already_crawled

theorem mem_listInsert {l : List Url} {u v : Url} :
    v ∈ listInsert l u ↔ v ∈ l ∨ v = u := by
  unfold listInsert
  by_cases h : u ∈ l
  · simp only [if_pos h]
    constructor
    · exact fun hv => Or.inl hv
    · rintro (hv | rfl) <;> [exact hv; exact h]
  · simp [if_neg h]

theorem mem_listRemove {l : List Url} {u v : Url} :
    v ∈ listRemove l u ↔ v ∈ l ∧ v ≠ u := by
  simp [listRemove, List.mem_filter]

theorem applyOp_inv {ctx : CrawlContext} (h : FrontierInv ctx) (op : FrontierOp) :
    FrontierInv (applyOp ctx op).1 := by
  have hadd : ∀ (c : CrawlContext) (u : Url), FrontierInv c →
      FrontierInv (c.add_url_to_crawl u) := by
    intro c u hc v hv
    simp only [CrawlContext.add_url_to_crawl] at hv ⊢
    by_cases hmem : strip_url u ∈ c.urls_already_crawled
    · simp only [if_pos hmem] at hv ⊢
      exact hc v hv
    · simp only [if_neg hmem] at hv ⊢
      rcases mem_listInsert.mp hv with hv' | rfl
      · exact hc v hv'
      · exact hmem
  cases op with
  | add u => exact hadd ctx u h
  | addMany us =>
      show FrontierInv (CrawlContext.add_urls_to_crawl ctx us)
      unfold CrawlContext.add_urls_to_crawl
      induction us generalizing ctx with
      | nil => exact h
      | cons u us ih => exact ih (hadd ctx u h)
  | pop k =>
      show FrontierInv (ctx.pop_url_to_crawl k).2
      unfold CrawlContext.pop_url_to_crawl
      cases hg : ctx.urls_to_crawl.get? (k % ctx.urls_to_crawl.length) with
      | none => exact h
      | some u =>
          intro v hv
          exact h v (mem_listRemove.mp hv).1
  | mark u =>
      intro v hv
      simp only [applyOp, CrawlContext.mark_url_as_crawled] at hv ⊢
      rcases mem_listRemove.mp hv with ⟨hvl, hne⟩
      intro hvis
      rcases mem_listInsert.mp hvis with hvis' | rfl
      · exact h v hvl hvis'
      · exact hne rfl

theorem applyOp_visited_stable {ctx : CrawlContext} {u : Url}
    (hvis : u ∈ ctx.urls_already_crawled) (hpen : u ∉ ctx.urls_to_crawl)
    (op : FrontierOp) :
    u ∈ (applyOp ctx op).1.urls_already_crawled ∧
    u ∉ (applyOp ctx op).1.urls_to_crawl ∧
    (applyOp ctx op).2 ≠ some u := by
  have hadd : ∀ (c : CrawlContext) (w : Url),
      u ∈ c.urls_already_crawled → u ∉ c.urls_to_crawl →
      u ∈ (c.add_url_to_crawl w).urls_already_crawled ∧
      u ∉ (c.add_url_to_crawl w).urls_to_crawl := by
    intro c w hv hp
    unfold CrawlContext.add_url_to_crawl
    by_cases hmem : strip_url w ∈ c.urls_already_crawled
    · simp only [if_pos hmem]
      exact ⟨hv, hp⟩
    · simp only [if_neg hmem]
      refine ⟨hv, ?_⟩
      intro hu
      rcases mem_listInsert.mp hu with hu' | rfl
      · exact hp hu'
      · exact hmem hv
  cases op with
  | add w =>
      have := hadd ctx w hvis hpen
      exact ⟨this.1, this.2, by simp [applyOp]⟩
  | addMany ws =>
      refine ⟨?_, ?_, by simp [applyOp]⟩ <;>
      · show _
        have key : u ∈ (CrawlContext.add_urls_to_crawl ctx ws).urls_already_crawled ∧
            u ∉ (CrawlContext.add_urls_to_crawl ctx ws).urls_to_crawl := by
          unfold CrawlContext.add_urls_to_crawl
          induction ws generalizing ctx with
          | nil => exact ⟨hvis, hpen⟩
          | cons w ws ih =>
              have h1 := hadd ctx w hvis hpen
              exact ih h1.1 h1.2
        first
        | exact key.1
        | exact key.2
  | pop k =>
      show u ∈ (ctx.pop_url_to_crawl k).2.urls_already_crawled ∧
        u ∉ (ctx.pop_url_to_crawl k).2.urls_to_crawl ∧
        (ctx.pop_url_to_crawl k).1 ≠ some u
      unfold CrawlContext.pop_url_to_crawl
      cases hg : ctx.urls_to_crawl.get? (k % ctx.urls_to_crawl.length) with
      | none => exact ⟨hvis, hpen, by simp⟩
      | some w =>
          have hw : w ∈ ctx.urls_to_crawl := List.get?_mem hg
          refine ⟨hvis, ?_, ?_⟩
          · intro hu
            exact hpen (mem_listRemove.mp hu).1
          · intro hc
            have : w = u := by injection hc
            exact hpen (this ▸ hw)
  | mark w =>
      unfold applyOp CrawlContext.mark_url_as_crawled
      refine ⟨mem_listInsert.mpr (Or.inl hvis), ?_, by simp⟩
      intro hu
      exact hpen (mem_listRemove.mp hu).1

theorem runOps_inv {ctx : CrawlContext} (h : FrontierInv ctx)
    (ops : List FrontierOp) : FrontierInv (runOps ctx ops).1 := by
  induction ops generalizing ctx with
  | nil => exact h
  | cons op ops ih => exact ih (applyOp_inv h op)

theorem runOps_visited_stable {ctx : CrawlContext} {u : Url}
    (hvis : u ∈ ctx.urls_already_crawled) (hpen : u ∉ ctx.urls_to_crawl)
    (ops : List FrontierOp) :
    u ∈ (runOps ctx ops).1.urls_already_crawled ∧
    u ∉ (runOps ctx ops).1.urls_to_crawl ∧
    u ∉ (runOps ctx ops).2 := by
  induction ops generalizing ctx with
  | nil => exact ⟨hvis, hpen, by simp [runOps]⟩
  | cons op ops ih =>
      have h1 := applyOp_visited_stable hvis hpen op
      have h2 := ih h1.1 h1.2.1
      refine ⟨h2.1, h2.2.1, ?_⟩
      show u ∉ (applyOp ctx op).2.toList ++ (runOps (applyOp ctx op).1 ops).2
      intro hmem
      rcases List.mem_append.mp hmem with hl | hr
      · cases hc : (applyOp ctx op).2 with
        | none => simp [hc] at hl
        | some w =>
            simp only [hc, Option.toList_some, List.mem_singleton] at hl
            exact h1.2.2 (by rw [hc, hl])
      · exact h2.2.2 hr

theorem runOps_append (ctx : CrawlContext) (l₁ l₂ : List FrontierOp) :
    runOps ctx (l₁ ++ l₂) =
      ((runOps (runOps ctx l₁).1 l₂).1,
        (runOps ctx l₁).2 ++ (runOps (runOps ctx l₁).1 l₂).2) := by
  induction l₁ generalizing ctx with
  | nil => simp [runOps]
  | cons op l₁ ih =>
      simp [runOps, ih, List.append_assoc]

/-- C1.  For every sequence of frontier operations starting from the empty
`CrawlContext`, pending (`urls_to_crawl`) and visited (`urls_already_crawled`)
are disjoint after every operation; and once a normalized URL is visited it
never re-enters pending and is never returned by a later
`pop_url_to_crawl`. -/
theorem frontier_disjoint_visited_never_returns
    (l₁ l₂ : List FrontierOp) (u : Url)
    (hvis : u ∈ (runOps CrawlContext.new l₁).1.urls_already_crawled) :
    FrontierInv (runOps CrawlContext.new (l₁ ++ l₂)).1 ∧
    u ∉ (runOps CrawlContext.new (l₁ ++ l₂)).1.urls_to_crawl ∧
    u ∉ (runOps (runOps CrawlContext.new l₁).1 l₂).2 := by
  have hinv₀ : FrontierInv CrawlContext.new := by
    intro v hv
    simp [CrawlContext.new] at hv
  have hinv₁ : FrontierInv (runOps CrawlContext.new l₁).1 := runOps_inv hinv₀ l₁
  have hpen : u ∉ (runOps CrawlContext.new l₁).1.urls_to_crawl := by
    intro hp
    exact hinv₁ u hp hvis
  have hstab := runOps_visited_stable hvis hpen l₂
  refine ⟨?_, ?_, hstab.2.2⟩
  · exact runOps_inv hinv₀ (l₁ ++ l₂)
  · rw [runOps_append]
    exact hstab.2.1

/-- Witness for C1 at a concrete operation sequence: the URL
`http://example.test/` is added, popped and marked visited, then re-added
and popped again; the invariant holds, the URL is not pending, and the
second pop does not return it. -/
theorem frontier_disjoint_visited_never_returns_witness :
    (⟨"http", "example.test", "/", none, none⟩ : Url) ∈
      (runOps CrawlContext.new
        [.add ⟨"http", "example.test", "/", none, none⟩, .pop 0,
          .mark ⟨"http", "example.test", "/", none, none⟩]).1.urls_already_crawled ∧
    (⟨"http", "example.test", "/", none, none⟩ : Url) ∉
      (runOps (runOps CrawlContext.new
        [.add ⟨"http", "example.test", "/", none, none⟩, .pop 0,
          .mark ⟨"http", "example.test", "/", none, none⟩]).1
        [.add ⟨"http", "example.test", "/", none, none⟩, .pop 0]).2 := by
  refine ⟨by decide, ?_⟩
  exact (frontier_disjoint_visited_never_returns
    [.add ⟨"http", "example.test", "/", none, none⟩, .pop 0,
      .mark ⟨"http", "example.test", "/", none, none⟩]
    [.add ⟨"http", "example.test", "/", none, none⟩, .pop 0]
    ⟨"http", "example.test", "/", none, none⟩ (by decide)).2.2

/-- C8.  Two URLs that differ only in their fragment and/or query components
are mapped by `strip_url` to the same URL value, hence are the same frontier
entry for deduplication. -/
theorem strip_url_eq_of_differ_only_in_fragment_query
    (a b : Url) (hs : a.scheme = b.scheme) (hh : a.host = b.host)
    (hp : a.path = b.path) : strip_url a = strip_url b := by
  cases a
  cases b
  simp only [strip_url]
  simp_all

/-- Witness for C8: `http://example.test/page?x=1#top` and
`http://example.test/page#bottom` normalize to the same URL. -/
theorem strip_url_eq_of_differ_only_in_fragment_query_witness :
    strip_url ⟨"http", "example.test", "/page", some "x=1", some "top"⟩ =
      strip_url ⟨"http", "example.test", "/page", none, some "bottom"⟩ :=
  strip_url_eq_of_differ_only_in_fragment_query
    ⟨"http", "example.test", "/page", some "x=1", some "top"⟩
    ⟨"http", "example.test", "/page", none, some "bottom"⟩ rfl rfl rfl

theorem find?_filter_ne (m : List (Nat × CrawlerInfo)) (j k : Nat) (hjk : j ≠ k) :
    (m.filter (fun p => decide (p.1 ≠ k))).find? (fun p => decide (p.1 = j)) =
      m.find? (fun p => decide (p.1 = j)) := by
  induction m with
  | nil => rfl
  | cons p m ih =>
      rw [List.filter_cons]
      by_cases hpk : p.1 = k
      · have hc : decide (p.1 ≠ k) = false := by simp [hpk]
        have hpj : decide (p.1 = j) = false := by
          simp only [decide_eq_false_iff_not]
          rw [hpk]
          exact fun h => hjk h.symm
        rw [hc]
        simp only [Bool.false_eq_true, if_false]
        rw [List.find?_cons, hpj]
        exact ih
      · have hc : decide (p.1 ≠ k) = true := by simp [hpk]
        rw [hc]
        simp only [if_true]
        rw [List.find?_cons, List.find?_cons]
        cases hpj : decide (p.1 = j) with
        | true => rfl
        | false => exact ih

theorem mapGet_mapInsert_self (m : List (Nat × CrawlerInfo)) (k : Nat)
    (v : CrawlerInfo) : mapGet (mapInsert m k v) k = some v := by
  simp [mapGet, mapInsert, List.find?_cons]

theorem mapGet_mapInsert_ne (m : List (Nat × CrawlerInfo)) (j k : Nat)
    (v : CrawlerInfo) (hjk : j ≠ k) :
    mapGet (mapInsert m k v) j = mapGet m j := by
  have hd : decide ((k, v).1 = j) = false := by
    simp only [decide_eq_false_iff_not]
    exact fun h => hjk h.symm
  simp only [mapGet, mapInsert, List.find?_cons, hd]
  rw [find?_filter_ne m j k hjk]

theorem mapGet_mapRemove_self (m : List (Nat × CrawlerInfo)) (k : Nat) :
    mapGet (mapRemove m k) k = none := by
  have hf : (m.filter (fun p => decide (p.1 ≠ k))).find?
      (fun p => decide (p.1 = k)) = none := by
    rw [List.find?_eq_none]
    intro p hp
    have h2 := (List.mem_filter.mp hp).2
    simp only [decide_eq_true_eq] at h2
    simp [h2]
  simp only [mapGet, mapRemove]
  rw [hf]
  rfl

theorem mapGet_mapRemove_ne (m : List (Nat × CrawlerInfo)) (j k : Nat)
    (hjk : j ≠ k) : mapGet (mapRemove m k) j = mapGet m j := by
  simp only [mapGet, mapRemove]
  rw [find?_filter_ne m j k hjk]

theorem mapGet_mapUpdate_ne (m : List (Nat × CrawlerInfo)) (j k : Nat)
    (f : CrawlerInfo → CrawlerInfo) (hjk : j ≠ k) :
    mapGet (mapUpdate m k f) j = mapGet m j := by
  induction m with
  | nil => rfl
  | cons p m ih =>
      simp only [mapUpdate, List.map_cons] at ih ⊢
      by_cases hpk : p.1 = k
      · have hpj : decide ((p.1, f p.2).1 = j) = false := by
          simp only [decide_eq_false_iff_not]
          rw [hpk]
          exact fun h => hjk h.symm
        have hpj2 : decide (p.1 = j) = false := by
          simp only [decide_eq_false_iff_not]
          rw [hpk]
          exact fun h => hjk h.symm
        simp only [mapGet, List.find?_cons, if_pos hpk, hpj, hpj2]
        exact ih
      · simp only [mapGet, List.find?_cons, if_neg hpk]
        cases hpj : decide (p.1 = j) with
        | true => rfl
        | false => exact ih

theorem mapGet_mapUpdate_self (m : List (Nat × CrawlerInfo)) (k : Nat)
    (f : CrawlerInfo → CrawlerInfo) (ci : CrawlerInfo)
    (h : mapGet m k = some ci) : mapGet (mapUpdate m k f) k = some (f ci) := by
  induction m with
  | nil => simp [mapGet] at h
  | cons p m ih =>
      by_cases hpk : p.1 = k
      · have hd : decide (p.1 = k) = true := by simp [hpk]
        simp only [mapGet, List.find?_cons, hd, Option.map_some] at h
        have h2 : p.2 = ci := by injection h
        simp only [mapUpdate, List.map_cons, if_pos hpk, mapGet, List.find?_cons, hd,
          Option.map_some, h2]
        rfl
      · have hd : decide (p.1 = k) = false := by simp [hpk]
        simp only [mapGet, List.find?_cons, hd] at h
        simp only [mapUpdate, List.map_cons, if_neg hpk, mapGet, List.find?_cons, hd]
        exact ih h

theorem mapUpdate_of_get_none (m : List (Nat × CrawlerInfo)) (k : Nat)
    (f : CrawlerInfo → CrawlerInfo) (h : mapGet m k = none) :
    mapUpdate m k f = m := by
  induction m with
  | nil => rfl
  | cons p m ih =>
      by_cases hpk : p.1 = k
      · have hd : decide (p.1 = k) = true := by simp [hpk]
        simp [mapGet, List.find?_cons, hd] at h
      · have hd : decide (p.1 = k) = false := by simp [hpk]
        simp only [mapGet, List.find?_cons, hd] at h
        simp only [mapUpdate, List.map_cons, if_neg hpk]
        rw [show m.map (fun p => if p.1 = k then (p.1, f p.2) else p) =
          mapUpdate m k f from rfl, ih h]

/-- C9.  The telemetry event handler creates a display-table entry for a
`crawler_index` on Begin, mutates only that index's entry on
ProgressUpdate, ProgressMessage and CrawlerStateChanged, removes it on
End, and Begin followed immediately by End on the empty table leaves zero
rows. -/
theorem handle_event_lifecycle
    (crawlers : List (Nat × CrawlerInfo)) (i : Nat) (u : Url)
    (a b : Nat) (msg : String) (st : CrawlerState) :
    (mapGet (handle_event (.begin i u) crawlers) i =
        some ⟨i, u, 0, 0, .paused, none⟩ ∧
      ∀ j, j ≠ i →
        mapGet (handle_event (.begin i u) crawlers) j = mapGet crawlers j) ∧
    ((∀ ci, mapGet crawlers i = some ci →
        mapGet (handle_event (.progressUpdate i a b) crawlers) i =
          some { ci with num_urls_to_crawl := a, num_urls_crawled := b }) ∧
      ∀ j, j ≠ i →
        mapGet (handle_event (.progressUpdate i a b) crawlers) j =
          mapGet crawlers j) ∧
    ((∀ ci, mapGet crawlers i = some ci →
        mapGet (handle_event (.progressMessage i msg) crawlers) i =
          some { ci with message := some msg }) ∧
      ∀ j, j ≠ i →
        mapGet (handle_event (.progressMessage i msg) crawlers) j =
          mapGet crawlers j) ∧
    ((∀ ci, mapGet crawlers i = some ci →
        mapGet (handle_event (.crawlerStateChanged i st) crawlers) i =
          some { ci with state := st }) ∧
      ∀ j, j ≠ i →
        mapGet (handle_event (.crawlerStateChanged i st) crawlers) j =
          mapGet crawlers j) ∧
    (mapGet (handle_event (.finish i) crawlers) i = none ∧
      ∀ j, j ≠ i →
        mapGet (handle_event (.finish i) crawlers) j = mapGet crawlers j) ∧
    handle_event (.finish i) (handle_event (.begin i u) []) = [] := by
  refine ⟨⟨?_, ?_⟩, ⟨?_, ?_⟩, ⟨?_, ?_⟩, ⟨?_, ?_⟩, ⟨?_, ?_⟩, ?_⟩
  · exact mapGet_mapInsert_self crawlers i _
  · intro j hj
    exact mapGet_mapInsert_ne crawlers j i _ hj
  · intro ci hci
    exact mapGet_mapUpdate_self crawlers i
      (fun ci => { ci with num_urls_crawled := b, num_urls_to_crawl := a }) ci hci
  · intro j hj
    exact mapGet_mapUpdate_ne crawlers j i
      (fun ci => { ci with num_urls_crawled := b, num_urls_to_crawl := a }) hj
  · intro ci hci
    exact mapGet_mapUpdate_self crawlers i
      (fun ci => { ci with message := some msg }) ci hci
  · intro j hj
    exact mapGet_mapUpdate_ne crawlers j i
      (fun ci => { ci with message := some msg }) hj
  · intro ci hci
    exact mapGet_mapUpdate_self crawlers i (fun ci => { ci with state := st }) ci hci
  · intro j hj
    exact mapGet_mapUpdate_ne crawlers j i (fun ci => { ci with state := st }) hj
  · exact mapGet_mapRemove_self _ i
  · intro j hj
    exact mapGet_mapRemove_ne crawlers j i hj
  · simp [handle_event, mapInsert, mapRemove, List.filter_cons]

/-- Witness for C9: on a one-row table for index 0, Begin for index 1
creates the entry, End removes it, and events for index 1 do not touch
index 0's row; Begin immediately followed by End leaves zero rows. -/
theorem handle_event_lifecycle_witness :
    mapGet (handle_event (.begin 1 ⟨"http", "b.test", "/", none, none⟩)
        [(0, ⟨0, ⟨"http", "a.test", "/", none, none⟩, 0, 0, .paused, none⟩)]) 1 =
      some ⟨1, ⟨"http", "b.test", "/", none, none⟩, 0, 0, .paused, none⟩ ∧
    mapGet (handle_event (.progressUpdate 1 3 4)
        [(0, ⟨0, ⟨"http", "a.test", "/", none, none⟩, 0, 0, .paused, none⟩)]) 0 =
      mapGet [(0, ⟨0, ⟨"http", "a.test", "/", none, none⟩, 0, 0, .paused, none⟩)] 0 ∧
    handle_event (.finish 1)
        (handle_event (.begin 1 ⟨"http", "b.test", "/", none, none⟩) []) = [] := by
  have h := handle_event_lifecycle
    [(0, ⟨0, ⟨"http", "a.test", "/", none, none⟩, 0, 0, .paused, none⟩)] 1
    ⟨"http", "b.test", "/", none, none⟩ 3 4 "m" .crawling
  exact ⟨h.1.1, h.2.1.2 0 (by decide), h.2.2.2.2.2⟩

/-- C10.  A ProgressUpdate, ProgressMessage or CrawlerStateChanged event
whose crawler_index has no entry in the display table leaves the whole
table unchanged. -/
theorem handle_event_unknown_index_noop
    (crawlers : List (Nat × CrawlerInfo)) (i a b : Nat) (msg : String)
    (st : CrawlerState) (h : mapGet crawlers i = none) :
    handle_event (.progressUpdate i a b) crawlers = crawlers ∧
    handle_event (.progressMessage i msg) crawlers = crawlers ∧
    handle_event (.crawlerStateChanged i st) crawlers = crawlers :=
  ⟨mapUpdate_of_get_none crawlers i
      (fun ci => { ci with num_urls_crawled := b, num_urls_to_crawl := a }) h,
    mapUpdate_of_get_none crawlers i (fun ci => { ci with message := some msg }) h,
    mapUpdate_of_get_none crawlers i (fun ci => { ci with state := st }) h⟩

/-- Witness for C10: a table holding only index 0 is unchanged by events
for index 7. -/
theorem handle_event_unknown_index_noop_witness :
    handle_event (.progressUpdate 7 3 4)
        [(0, ⟨0, ⟨"http", "a.test", "/", none, none⟩, 0, 0, .paused, none⟩)] =
      [(0, ⟨0, ⟨"http", "a.test", "/", none, none⟩, 0, 0, .paused, none⟩)] ∧
    handle_event (.progressMessage 7 "m")
        [(0, ⟨0, ⟨"http", "a.test", "/", none, none⟩, 0, 0, .paused, none⟩)] =
      [(0, ⟨0, ⟨"http", "a.test", "/", none, none⟩, 0, 0, .paused, none⟩)] ∧
    handle_event (.crawlerStateChanged 7 .crawling)
        [(0, ⟨0, ⟨"http", "a.test", "/", none, none⟩, 0, 0, .paused, none⟩)] =
      [(0, ⟨0, ⟨"http", "a.test", "/", none, none⟩, 0, 0, .paused, none⟩)] :=
  handle_event_unknown_index_noop
    [(0, ⟨0, ⟨"http", "a.test", "/", none, none⟩, 0, 0, .paused, none⟩)]
    7 3 4 "m" .crawling (by decide)

/-- C5.  `SeedCrawler::crawl` never consults `max_pages` or `max_depth`:
two configurations with the same `requests_per_second` produce the same
event trace and the same result. -/
theorem crawl_independent_of_max_pages_max_depth
    (fetch : Url → Except CrawlError CrawlResponse) (shutdown : Nat → Bool)
    (seed : Url) (robots_response : Except String HttpResponse) (agent : String)
    (fuel : Nat) (config config' : CrawlerConfig)
    (h : config.requests_per_second = config'.requests_per_second) :
    crawl fetch shutdown seed robots_response agent config fuel =
      crawl fetch shutdown seed robots_response agent config' fuel := by
  have hd : crawlDelayOf config = crawlDelayOf config' := by
    rw [crawlDelayOf, crawlDelayOf, h]
  simp only [crawl, hd]

/-- Witness for C5: configurations `{max_pages 1000, max_depth 4}` and
`{max_pages 0, max_depth 0}`, both with rate 2, crawl identically. -/
theorem crawl_independent_of_max_pages_max_depth_witness :
    crawl (fun _ => .error (.httpError 500)) (fun _ => false)
        ⟨"http", "example.test", "/", none, none⟩ (.ok ⟨404, ""⟩) "rusty-spider"
        ⟨1000, 4, some 2⟩ 5 =
      crawl (fun _ => .error (.httpError 500)) (fun _ => false)
        ⟨"http", "example.test", "/", none, none⟩ (.ok ⟨404, ""⟩) "rusty-spider"
        ⟨0, 0, some 2⟩ 5 :=
  crawl_independent_of_max_pages_max_depth (fun _ => .error (.httpError 500))
    (fun _ => false) ⟨"http", "example.test", "/", none, none⟩ (.ok ⟨404, ""⟩)
    "rusty-spider" 5 ⟨1000, 4, some 2⟩ ⟨0, 0, some 2⟩ rfl

/-- C4.  `MultiCrawler::run` returns `Ok` with exactly the summaries of
the tasks that completed successfully; a failed seed (an `Err` from
`SeedCrawler::crawl`, including the fatal fetch-failure case, or a task
that failed to join) contributes nothing and does not affect the other
seeds' summaries. -/
theorem multi_run_keeps_successes_drops_failures :
    (∀ task_results, MultiCrawler.run task_results =
        .ok (successfulSummaries task_results)) ∧
    (∀ pre post msg, MultiCrawler.run (pre ++ some (.error msg) :: post) =
        MultiCrawler.run (pre ++ post)) ∧
    (∀ pre post, MultiCrawler.run (pre ++ none :: post) =
        MultiCrawler.run (pre ++ post)) ∧
    (∀ pre post s, successfulSummaries (pre ++ some (.ok s) :: post) =
        successfulSummaries pre ++ s :: successfulSummaries post) ∧
    (∀ pre post fetch shutdown seed robots_response agent config fuel msg,
        (crawl fetch shutdown seed robots_response agent config fuel).2 =
          .error msg →
        MultiCrawler.run (pre ++
            some (crawl fetch shutdown seed robots_response agent config fuel).2
              :: post) =
          MultiCrawler.run (pre ++ post)) := by
  refine ⟨fun _ => rfl, ?_, ?_, ?_, ?_⟩
  · intro pre post msg
    simp [MultiCrawler.run, successfulSummaries, List.filterMap_append]
  · intro pre post
    simp [MultiCrawler.run, successfulSummaries, List.filterMap_append]
  · intro pre post s
    simp [successfulSummaries, List.filterMap_append]
  · intro pre post fetch shutdown seed robots_response agent config fuel msg h
    rw [h]
    simp [MultiCrawler.run, successfulSummaries, List.filterMap_append]

/-- Witness for C4: with seed 2's crawl aborting on a transport error,
`run` returns the summaries of seeds 1 and 3 unaffected. -/
theorem multi_run_keeps_successes_drops_failures_witness :
    (crawl (fun _ => .error (.reqwestError "connection refused"))
        (fun _ => false) ⟨"http", "b.test", "/", none, none⟩ (.ok ⟨404, ""⟩)
        "rusty-spider" ⟨1000, 4, none⟩ 3).2 =
      .error "Crawl error: connection refused" ∧
    MultiCrawler.run
        [some (.ok ⟨[PageSummary.from_status_code ⟨"http", "a.test", "/", none, none⟩ 200]⟩),
          some (crawl (fun _ => .error (.reqwestError "connection refused"))
            (fun _ => false) ⟨"http", "b.test", "/", none, none⟩ (.ok ⟨404, ""⟩)
            "rusty-spider" ⟨1000, 4, none⟩ 3).2,
          some (.ok ⟨[PageSummary.from_status_code ⟨"http", "c.test", "/", none, none⟩ 200]⟩)] =
      MultiCrawler.run
        [some (.ok ⟨[PageSummary.from_status_code ⟨"http", "a.test", "/", none, none⟩ 200]⟩),
          some (.ok ⟨[PageSummary.from_status_code ⟨"http", "c.test", "/", none, none⟩ 200]⟩)] := by
  refine ⟨by rfl, ?_⟩
  exact multi_run_keeps_successes_drops_failures.2.2.2.2
    [some (.ok ⟨[PageSummary.from_status_code ⟨"http", "a.test", "/", none, none⟩ 200]⟩)]
    [some (.ok ⟨[PageSummary.from_status_code ⟨"http", "c.test", "/", none, none⟩ 200]⟩)]
    (fun _ => .error (.reqwestError "connection refused")) (fun _ => false)
    ⟨"http", "b.test", "/", none, none⟩ (.ok ⟨404, ""⟩) "rusty-spider"
    ⟨1000, 4, none⟩ 3 "Crawl error: connection refused" (by rfl)

/-- C3.  `RobotsTxtSource::load_from_url` yields the empty-content
(allow-all: no disallow rules) source on a 404, fails on every other
non-success status, and a robots-load failure makes `SeedCrawler::crawl`
abort with only the Begin event emitted: no page visited, no
`PageSummary` recorded, no `CrawlSummary` returned. -/
theorem robots_load_404_allow_all_else_fatal :
    (∀ body agent, RobotsTxtSource.load_from_url (.ok ⟨404, body⟩) agent =
        .ok ⟨"", agent⟩) ∧
    (parseDisallowRules "" = [] ∧ ∀ p, check_path (parseDisallowRules "") p = true) ∧
    (∀ status body agent, isSuccessStatus status = false → status ≠ 404 →
        RobotsTxtSource.load_from_url (.ok ⟨status, body⟩) agent =
          .error "An error occurred fetching robots.txt") ∧
    (∀ fetch shutdown seed robots_response agent config fuel msg,
        RobotsTxtSource.load_from_url robots_response agent = .error msg →
        crawl fetch shutdown seed robots_response agent config fuel =
          ([CrawlEvent.begin], .error msg)) := by
  refine ⟨?_, ⟨by decide, fun p => by rfl⟩, ?_, ?_⟩
  · intro body agent
    simp [RobotsTxtSource.load_from_url, isSuccessStatus]
  · intro status body agent hs h404
    simp [RobotsTxtSource.load_from_url, hs, h404]
  · intro fetch shutdown seed robots_response agent config fuel msg h
    simp only [crawl, h]

/-- Witness for C3: a 500 response fails the load, and the failed load
makes the crawl of `http://example.test/` return only Begin and the
error. -/
theorem robots_load_404_allow_all_else_fatal_witness :
    RobotsTxtSource.load_from_url (.ok ⟨500, "oops"⟩) "rusty-spider" =
      .error "An error occurred fetching robots.txt" ∧
    crawl (fun _ => .error (.httpError 500)) (fun _ => false)
        ⟨"http", "example.test", "/", none, none⟩ (.ok ⟨500, "oops"⟩)
        "rusty-spider" ⟨1000, 4, none⟩ 5 =
      ([CrawlEvent.begin], .error "An error occurred fetching robots.txt") := by
  refine ⟨robots_load_404_allow_all_else_fatal.2.2.1 500 "oops" "rusty-spider"
    (by decide) (by decide), ?_⟩
  exact robots_load_404_allow_all_else_fatal.2.2.2
    (fun _ => .error (.httpError 500)) (fun _ => false)
    ⟨"http", "example.test", "/", none, none⟩ (.ok ⟨500, "oops"⟩) "rusty-spider"
    ⟨1000, 4, none⟩ 5 "An error occurred fetching robots.txt" (by rfl)

theorem crawlLoop_complete (check : String → Bool)
    (fetch : Url → Except CrawlError CrawlResponse) (shutdown : Nat → Bool)
    (cd : Option Nat) (fuel sd : Nat) (ctx : CrawlContext) (s : List PageSummary)
    (h : ctx.is_crawling_complete = true) :
    crawlLoop check fetch shutdown cd fuel sd ctx s = ([], .ok s) := by
  cases fuel <;> cases hs : shutdown sd <;> simp [crawlLoop, h, hs]

/-- C6.  A seed whose robots policy disallows its path yields a
`CrawlSummary` with exactly one entry: the seed URL with status 403 and
empty content type, title and links; no fetch is attempted (the crawl
does not depend on the fetch oracle) and no further URL is crawled. -/
theorem robots_disallow_all_single_403
    (fetch fetch' : Url → Except CrawlError CrawlResponse) (shutdown : Nat → Bool)
    (seed : Url) (robots_response : Except String HttpResponse)
    (agent : String) (config : CrawlerConfig) (fuel : Nat) (src : RobotsTxtSource)
    (hld : RobotsTxtSource.load_from_url robots_response agent = .ok src)
    (hstrip : strip_url seed = seed)
    (hdeny : check_path (parseDisallowRules src.content) seed.path = false)
    (hshut : ∀ n, shutdown n = false) :
    crawl fetch shutdown seed robots_response agent config (fuel + 1) =
      crawl fetch' shutdown seed robots_response agent config (fuel + 1) ∧
    (crawl fetch shutdown seed robots_response agent config (fuel + 1)).2 =
      .ok ⟨[PageSummary.from_status_code seed 403]⟩ ∧
    ∀ m, CrawlEvent.progressMessage m ∉
      (crawl fetch shutdown seed robots_response agent config (fuel + 1)).1 := by
  have hctx : CrawlContext.new.add_url_to_crawl seed = ⟨[seed], []⟩ := by
    simp [CrawlContext.new, CrawlContext.add_url_to_crawl, hstrip, listInsert]
  have hstep : ∀ f : Url → Except CrawlError CrawlResponse,
      crawl_next_url (fun p => check_path (parseDisallowRules src.content) p) f
        ⟨[seed], []⟩ = ([], ⟨[], [seed]⟩, .ok (.deniedByRobotsTxt seed)) := by
    intro f
    simp [crawl_next_url, CrawlContext.pop_url_to_crawl, listRemove,
      CrawlContext.mark_url_as_crawled, hstrip, hdeny, listInsert]
  have hloop : ∀ (f : Url → Except CrawlError CrawlResponse) (cd : Option Nat),
      crawlLoop (fun p => check_path (parseDisallowRules src.content) p) f
        shutdown cd (fuel + 1) 0 ⟨[seed], []⟩ [] =
      ([CrawlEvent.progressUpdate 1 0],
        .ok [PageSummary.from_status_code seed 403]) := by
    intro f cd
    have hc : (⟨[seed], []⟩ : CrawlContext).is_crawling_complete = false := rfl
    have hc2 : (⟨[], [seed]⟩ : CrawlContext).is_crawling_complete = true := rfl
    cases cd <;>
      simp [crawlLoop, hshut, hc, hstep f, outputToSummary,
        CrawlContext.progress, crawlLoop_complete, hc2]
  have hcrawl : ∀ f : Url → Except CrawlError CrawlResponse,
      crawl f shutdown seed robots_response agent config (fuel + 1) =
      ([CrawlEvent.begin, CrawlEvent.stateChanged .crawling,
        CrawlEvent.progressUpdate 1 0, CrawlEvent.finish],
        .ok ⟨[PageSummary.from_status_code seed 403]⟩) := by
    intro f
    simp only [crawl, hld, hctx]
    rw [hloop f (crawlDelayOf config)]
    rfl
  refine ⟨?_, ?_, ?_⟩
  · rw [hcrawl fetch, hcrawl fetch']
  · rw [hcrawl fetch]
  · intro m
    rw [hcrawl fetch]
    simp

/-- Witness for C6: seed `http://example.test/` with robots content
`Disallow: /` yields exactly `[403]`, independently of two different
fetch oracles. -/
theorem robots_disallow_all_single_403_witness :
    crawl (fun _ => .error (.httpError 500)) (fun _ => false)
        ⟨"http", "example.test", "/", none, none⟩ (.ok ⟨200, "Disallow: /"⟩)
        "rusty-spider" ⟨1000, 4, none⟩ 3 =
      crawl (fun _ => .ok ⟨⟨"http", "example.test", "/", none, none⟩, 200,
          "text/html", "T", [], []⟩) (fun _ => false)
        ⟨"http", "example.test", "/", none, none⟩ (.ok ⟨200, "Disallow: /"⟩)
        "rusty-spider" ⟨1000, 4, none⟩ 3 ∧
    (crawl (fun _ => .error (.httpError 500)) (fun _ => false)
        ⟨"http", "example.test", "/", none, none⟩ (.ok ⟨200, "Disallow: /"⟩)
        "rusty-spider" ⟨1000, 4, none⟩ 3).2 =
      .ok ⟨[PageSummary.from_status_code ⟨"http", "example.test", "/", none, none⟩ 403]⟩ := by
  have h := robots_disallow_all_single_403
    (fun _ => .error (.httpError 500))
    (fun _ => .ok ⟨⟨"http", "example.test", "/", none, none⟩, 200, "text/html", "T", [], []⟩)
    (fun _ => false) ⟨"http", "example.test", "/", none, none⟩
    (.ok ⟨200, "Disallow: /"⟩) "rusty-spider" ⟨1000, 4, none⟩ 2
    ⟨"Disallow: /", "rusty-spider"⟩ (by rfl) (by rfl) (by decide) (fun n => rfl)
  exact ⟨h.1, h.2.1⟩

/-- C2.  An `HttpError(S)` fetch failure is the only recoverable class:
`crawl_next_url` turns it into an `Ok` output recorded as
`PageSummary{url, S, "", "", 0}` and the loop continues (for a frontier
holding only that URL the crawl completes with exactly that summary);
every other fetch failure makes `crawl_next_url` — and with it the whole
seed crawl — return an error immediately. -/
theorem http_error_only_recoverable_fetch_failure :
    (∀ (check : String → Bool) (fetch : Url → Except CrawlError CrawlResponse)
        (ctx : CrawlContext) (u : Url) (S : Nat),
      (ctx.pop_url_to_crawl 0).1 = some u → check u.path = true →
      fetch u = .error (.httpError S) →
      ∃ out, (crawl_next_url check fetch ctx).2.2 = .ok out ∧
        outputToSummary out = some (PageSummary.from_status_code u S)) ∧
    (∀ (check : String → Bool) (fetch : Url → Except CrawlError CrawlResponse)
        (ctx : CrawlContext) (u : Url) (e : CrawlError),
      (ctx.pop_url_to_crawl 0).1 = some u → check u.path = true →
      fetch u = .error e → (∀ s, e ≠ .httpError s) →
      (crawl_next_url check fetch ctx).2.2 =
        .error ("Crawl error: " ++ e.message)) ∧
    (∀ (fetch : Url → Except CrawlError CrawlResponse) (shutdown : Nat → Bool)
        (seed : Url) (robots_response : Except String HttpResponse)
        (agent : String) (config : CrawlerConfig) (fuel : Nat)
        (src : RobotsTxtSource) (S : Nat),
      RobotsTxtSource.load_from_url robots_response agent = .ok src →
      strip_url seed = seed →
      check_path (parseDisallowRules src.content) seed.path = true →
      (∀ n, shutdown n = false) →
      fetch seed = .error (.httpError S) →
      (crawl fetch shutdown seed robots_response agent config (fuel + 1)).2 =
        .ok ⟨[PageSummary.from_status_code seed S]⟩) ∧
    (∀ (fetch : Url → Except CrawlError CrawlResponse) (shutdown : Nat → Bool)
        (seed : Url) (robots_response : Except String HttpResponse)
        (agent : String) (config : CrawlerConfig) (fuel : Nat)
        (src : RobotsTxtSource) (e : CrawlError),
      RobotsTxtSource.load_from_url robots_response agent = .ok src →
      strip_url seed = seed →
      check_path (parseDisallowRules src.content) seed.path = true →
      (∀ n, shutdown n = false) →
      fetch seed = .error e → (∀ s, e ≠ .httpError s) →
      (crawl fetch shutdown seed robots_response agent config (fuel + 1)).2 =
        .error ("Crawl error: " ++ e.message)) := by
  have part1 : ∀ (check : String → Bool)
      (fetch : Url → Except CrawlError CrawlResponse)
      (ctx : CrawlContext) (u : Url) (S : Nat),
      (ctx.pop_url_to_crawl 0).1 = some u → check u.path = true →
      fetch u = .error (.httpError S) →
      crawl_next_url check fetch ctx =
        ([CrawlEvent.progressMessage ("Crawling " ++ u.render)],
          ((ctx.pop_url_to_crawl 0).2.mark_url_as_crawled u),
          .ok (if S = 404 then .httpNotFound u else .httpError u S)) := by
    intro check fetch ctx u S hpop hallow hfetch
    simp only [crawl_next_url, hpop, hallow, hfetch]
    by_cases hS : S = 404 <;> simp [hS]
  have part2 : ∀ (check : String → Bool)
      (fetch : Url → Except CrawlError CrawlResponse)
      (ctx : CrawlContext) (u : Url) (e : CrawlError),
      (ctx.pop_url_to_crawl 0).1 = some u → check u.path = true →
      fetch u = .error e → (∀ s, e ≠ .httpError s) →
      crawl_next_url check fetch ctx =
        ([CrawlEvent.progressMessage ("Crawling " ++ u.render)],
          ((ctx.pop_url_to_crawl 0).2.mark_url_as_crawled u),
          .error ("Crawl error: " ++ e.message)) := by
    intro check fetch ctx u e hpop hallow hfetch hne
    simp only [crawl_next_url, hpop, hallow, hfetch]
    cases e with
    | httpError s => exact absurd rfl (hne s)
    | anyError msg => simp
    | urlParseError msg => simp
    | reqwestError msg => simp
    | mimeParseError msg => simp
  have hpop1 : ∀ seed : Url,
      ((⟨[seed], []⟩ : CrawlContext).pop_url_to_crawl 0).1 = some seed := by
    intro seed
    rfl
  have hmark : ∀ seed : Url, strip_url seed = seed →
      ((⟨[seed], []⟩ : CrawlContext).pop_url_to_crawl 0).2.mark_url_as_crawled seed =
        ⟨[], [seed]⟩ := by
    intro seed hstrip
    simp [CrawlContext.pop_url_to_crawl, CrawlContext.mark_url_as_crawled,
      listRemove, listInsert, hstrip]
  refine ⟨?_, ?_, ?_, ?_⟩
  · intro check fetch ctx u S hpop hallow hfetch
    rw [part1 check fetch ctx u S hpop hallow hfetch]
    by_cases hS : S = 404
    · exact ⟨.httpNotFound u, by rw [if_pos hS], by subst hS; rfl⟩
    · exact ⟨.httpError u S, by rw [if_neg hS], rfl⟩
  · intro check fetch ctx u e hpop hallow hfetch hne
    rw [part2 check fetch ctx u e hpop hallow hfetch hne]
  · intro fetch shutdown seed robots_response agent config fuel src S hld hstrip
      hallow hshut hfetch
    have hctx : CrawlContext.new.add_url_to_crawl seed = ⟨[seed], []⟩ := by
      simp [CrawlContext.new, CrawlContext.add_url_to_crawl, hstrip, listInsert]
    have hstep := part1 (fun p => check_path (parseDisallowRules src.content) p)
      fetch ⟨[seed], []⟩ seed S (hpop1 seed) hallow hfetch
    rw [hmark seed hstrip] at hstep
    have houtsum : outputToSummary
        (if S = 404 then .httpNotFound seed else .httpError seed S) =
        some (PageSummary.from_status_code seed S) := by
      by_cases hS : S = 404
      · rw [if_pos hS, outputToSummary, hS]
      · rw [if_neg hS]
        rfl
    have hloop : ∀ cd : Option Nat,
        crawlLoop (fun p => check_path (parseDisallowRules src.content) p) fetch
          shutdown cd (fuel + 1) 0 ⟨[seed], []⟩ [] =
        ([CrawlEvent.progressUpdate 1 0,
          CrawlEvent.progressMessage ("Crawling " ++ seed.render)],
          .ok [PageSummary.from_status_code seed S]) := by
      intro cd
      have hc : (⟨[seed], []⟩ : CrawlContext).is_crawling_complete = false := rfl
      have hc2 : (⟨[], [seed]⟩ : CrawlContext).is_crawling_complete = true := rfl
      cases cd <;>
        simp [crawlLoop, hshut, hc, hstep, houtsum, CrawlContext.progress,
          crawlLoop_complete, hc2]
    simp only [crawl, hld, hctx]
    rw [hloop (crawlDelayOf config)]
  · intro fetch shutdown seed robots_response agent config fuel src e hld hstrip
      hallow hshut hfetch hne
    have hctx : CrawlContext.new.add_url_to_crawl seed = ⟨[seed], []⟩ := by
      simp [CrawlContext.new, CrawlContext.add_url_to_crawl, hstrip, listInsert]
    have hstep := part2 (fun p => check_path (parseDisallowRules src.content) p)
      fetch ⟨[seed], []⟩ seed e (hpop1 seed) hallow hfetch hne
    rw [hmark seed hstrip] at hstep
    have hloop :
        crawlLoop (fun p => check_path (parseDisallowRules src.content) p) fetch
          shutdown (crawlDelayOf config) (fuel + 1) 0 ⟨[seed], []⟩ [] =
        ([CrawlEvent.progressUpdate 1 0,
          CrawlEvent.progressMessage ("Crawling " ++ seed.render)],
          .error ("Crawl error: " ++ e.message)) := by
      have hc : (⟨[seed], []⟩ : CrawlContext).is_crawling_complete = false := rfl
      simp [crawlLoop, hshut, hc, hstep, CrawlContext.progress]
    simp only [crawl, hld, hctx]
    rw [hloop]

/-- Witness for C2: on seed `http://example.test/` with an allow-all
robots policy, a 500 HTTP error is recorded as `[500]` and the crawl
completes, while a MIME-parse failure aborts the crawl with an error. -/
theorem http_error_only_recoverable_fetch_failure_witness :
    (crawl (fun _ => .error (.httpError 500)) (fun _ => false)
        ⟨"http", "example.test", "/", none, none⟩ (.ok ⟨404, ""⟩)
        "rusty-spider" ⟨1000, 4, none⟩ 3).2 =
      .ok ⟨[PageSummary.from_status_code ⟨"http", "example.test", "/", none, none⟩ 500]⟩ ∧
    (crawl (fun _ => .error (.mimeParseError "invalid MIME")) (fun _ => false)
        ⟨"http", "example.test", "/", none, none⟩ (.ok ⟨404, ""⟩)
        "rusty-spider" ⟨1000, 4, none⟩ 3).2 =
      .error ("Crawl error: " ++ CrawlError.message (.mimeParseError "invalid MIME")) := by
  constructor
  · exact http_error_only_recoverable_fetch_failure.2.2.1
      (fun _ => .error (.httpError 500)) (fun _ => false)
      ⟨"http", "example.test", "/", none, none⟩ (.ok ⟨404, ""⟩) "rusty-spider"
      ⟨1000, 4, none⟩ 2 ⟨"", "rusty-spider"⟩ 500 (by rfl) (by rfl) (by decide)
      (fun n => rfl) rfl
  · exact http_error_only_recoverable_fetch_failure.2.2.2
      (fun _ => .error (.mimeParseError "invalid MIME")) (fun _ => false)
      ⟨"http", "example.test", "/", none, none⟩ (.ok ⟨404, ""⟩) "rusty-spider"
      ⟨1000, 4, none⟩ 2 ⟨"", "rusty-spider"⟩ (.mimeParseError "invalid MIME")
      (by rfl) (by rfl) (by decide) (fun n => rfl) rfl
      (fun s h => by injection h)

theorem crawl_next_url_events_progressMessage (check : String → Bool)
    (fetch : Url → Except CrawlError CrawlResponse) (ctx : CrawlContext) :
    ∀ ev ∈ (crawl_next_url check fetch ctx).1,
      ∃ m, ev = CrawlEvent.progressMessage m := by
  intro ev hev
  simp only [crawl_next_url] at hev
  split at hev
  · simp at hev
  · split at hev
    · simp at hev
    · split at hev
      · exact ⟨_, by simpa using hev⟩
      · split at hev
        · split at hev <;> exact ⟨_, by simpa using hev⟩
        · exact ⟨_, by simpa using hev⟩

theorem crawlLoop_none_events (check : String → Bool)
    (fetch : Url → Except CrawlError CrawlResponse) (shutdown : Nat → Bool) :
    ∀ (fuel sd : Nat) (ctx : CrawlContext) (s : List PageSummary),
      ∀ ev ∈ (crawlLoop check fetch shutdown none fuel sd ctx s).1,
        (∃ a b, ev = CrawlEvent.progressUpdate a b) ∨
          ∃ m, ev = CrawlEvent.progressMessage m := by
  intro fuel
  induction fuel with
  | zero =>
      intro sd ctx s ev hev
      simp only [crawlLoop] at hev
      split at hev
      · simp at hev
      · split at hev <;> simp at hev
  | succ fuel ih =>
      intro sd ctx s ev hev
      simp only [crawlLoop] at hev
      split at hev
      · simp at hev
      · split at hev
        · simp at hev
        · split at hev
          · rcases List.mem_cons.mp hev with rfl | h
            · exact Or.inl ⟨_, _, rfl⟩
            · exact Or.inr (crawl_next_url_events_progressMessage _ _ _ ev h)
          · rcases List.mem_cons.mp hev with rfl | h
            · exact Or.inl ⟨_, _, rfl⟩
            · rcases List.mem_append.mp h with h | h
              · exact Or.inr (crawl_next_url_events_progressMessage _ _ _ ev h)
              · exact ih _ _ _ ev h

/-- C7.  With `requests_per_second = r` the crawl delay is
`(1000 / r) as u64` milliseconds; after each processed URL, if the
frontier is non-empty and shutdown was not requested, the loop emits
`StateChanged(Paused)`, sleeps that delay and emits
`StateChanged(Crawling)`; with `requests_per_second = none` no sleep and
no Paused transition is ever emitted. -/
theorem crawl_throttling_pause_pattern :
    (∀ (config : CrawlerConfig) (r : ℚ), config.requests_per_second = some r →
        crawlDelayOf config = some (⌊(1000 : ℚ) / r⌋).toNat) ∧
    (∀ (fetch : Url → Except CrawlError CrawlResponse) (shutdown : Nat → Bool)
        (seed : Url) (robots_response : Except String HttpResponse)
        (agent : String) (config : CrawlerConfig) (fuel : Nat),
        config.requests_per_second = none →
        (∀ d, CrawlEvent.sleepFor d ∉
            (crawl fetch shutdown seed robots_response agent config fuel).1) ∧
          CrawlEvent.stateChanged .paused ∉
            (crawl fetch shutdown seed robots_response agent config fuel).1) ∧
    (∀ (check : String → Bool) (fetch : Url → Except CrawlError CrawlResponse)
        (shutdown : Nat → Bool) (d fuel sd : Nat) (ctx : CrawlContext)
        (summaries : List PageSummary) (output : PageCrawlOutput),
        shutdown sd = false → ctx.is_crawling_complete = false →
        (crawl_next_url check fetch ctx).2.2 = .ok output →
        (crawl_next_url check fetch ctx).2.1.is_crawling_complete = false →
        shutdown (sd + 1) = false →
        crawlLoop check fetch shutdown (some d) (fuel + 1) sd ctx summaries =
          (CrawlEvent.progressUpdate ctx.progress.1 ctx.progress.2 ::
            ((crawl_next_url check fetch ctx).1 ++
              ([CrawlEvent.stateChanged .paused, CrawlEvent.sleepFor d,
                CrawlEvent.stateChanged .crawling] ++
                (crawlLoop check fetch shutdown (some d) fuel (sd + 2)
                  (crawl_next_url check fetch ctx).2.1
                  (summaries ++ (outputToSummary output).toList)).1)),
            (crawlLoop check fetch shutdown (some d) fuel (sd + 2)
              (crawl_next_url check fetch ctx).2.1
              (summaries ++ (outputToSummary output).toList)).2)) := by
  refine ⟨?_, ?_, ?_⟩
  · intro config r h
    rw [crawlDelayOf, h]
    rfl
  · intro fetch shutdown seed robots_response agent config fuel hrps
    have hcd : crawlDelayOf config = none := by rw [crawlDelayOf, hrps]; rfl
    have hsafe : ∀ ev : CrawlEvent,
        ((∃ a b, ev = CrawlEvent.progressUpdate a b) ∨
          (∃ m, ev = CrawlEvent.progressMessage m) ∨ ev = .begin ∨
          ev = .stateChanged .crawling ∨ ev = .finish) →
        ev ≠ CrawlEvent.stateChanged .paused ∧ ∀ d, ev ≠ CrawlEvent.sleepFor d := by
      rintro ev (⟨a, b, rfl⟩ | ⟨m, rfl⟩ | rfl | rfl | rfl) <;>
        exact ⟨by simp, by simp⟩
    have key : ∀ ev ∈ (crawl fetch shutdown seed robots_response agent config fuel).1,
        ev ≠ CrawlEvent.stateChanged .paused ∧ ∀ d, ev ≠ CrawlEvent.sleepFor d := by
      intro ev hev
      simp only [crawl, hcd] at hev
      rcases hload : RobotsTxtSource.load_from_url robots_response agent with e | src
      · rw [hload] at hev
        simp at hev
        subst hev
        exact hsafe _ (Or.inr (Or.inr (Or.inl rfl)))
      · rw [hload] at hev
        simp only at hev
        refine hsafe ev ?_
        split at hev
        · rcases List.mem_append.mp hev with h | h
          · rcases List.mem_append.mp h with h | h
            · exact Or.inr (Or.inr (Or.inl (List.mem_singleton.mp h)))
            · exact Or.inr (Or.inr (Or.inr (Or.inl (List.mem_singleton.mp h))))
          · rcases crawlLoop_none_events _ _ _ _ _ _ _ ev h with h | h
            · exact Or.inl h
            · exact Or.inr (Or.inl h)
        · rcases List.mem_append.mp hev with h | h
          · rcases List.mem_append.mp h with h | h
            · rcases List.mem_append.mp h with h | h
              · exact Or.inr (Or.inr (Or.inl (List.mem_singleton.mp h)))
              · exact Or.inr (Or.inr (Or.inr (Or.inl (List.mem_singleton.mp h))))
            · rcases crawlLoop_none_events _ _ _ _ _ _ _ ev h with h | h
              · exact Or.inl h
              · exact Or.inr (Or.inl h)
          · exact Or.inr (Or.inr (Or.inr (Or.inr (List.mem_singleton.mp h))))
    constructor
    · intro d hmem
      exact (key _ hmem).2 d rfl
    · intro hmem
      exact (key _ hmem).1 rfl
  · intro check fetch shutdown d fuel sd ctx summaries output h1 h2 hout h4 h5
    simp only [crawlLoop, h1, h2, hout, h4, h5, Bool.false_eq_true, if_false]
    rfl

/-- Witness for C7: rate 2 gives a 500 ms delay; an unthrottled crawl of
`http://example.test/` emits no sleep and no Paused transition; a
throttled loop iteration on a two-URL frontier emits the
Paused/sleep/Crawling triple. -/
theorem crawl_throttling_pause_pattern_witness :
    crawlDelayOf ⟨1000, 4, some 2⟩ = some 500 ∧
    CrawlEvent.stateChanged .paused ∉
      (crawl (fun _ => .error (.httpError 500)) (fun _ => false)
        ⟨"http", "example.test", "/", none, none⟩ (.ok ⟨404, ""⟩)
        "rusty-spider" ⟨1000, 4, none⟩ 3).1 ∧
    crawlLoop (fun _ => true) (fun _ => .error (.httpError 500)) (fun _ => false)
        (some 500) 1 0
        ⟨[⟨"http", "example.test", "/a", none, none⟩,
          ⟨"http", "example.test", "/b", none, none⟩], []⟩ [] =
      (CrawlEvent.progressUpdate 2 0 ::
        ((crawl_next_url (fun _ => true) (fun _ => .error (.httpError 500))
            ⟨[⟨"http", "example.test", "/a", none, none⟩,
              ⟨"http", "example.test", "/b", none, none⟩], []⟩).1 ++
          ([CrawlEvent.stateChanged .paused, CrawlEvent.sleepFor 500,
            CrawlEvent.stateChanged .crawling] ++
            (crawlLoop (fun _ => true) (fun _ => .error (.httpError 500))
              (fun _ => false) (some 500) 0 2
              (crawl_next_url (fun _ => true) (fun _ => .error (.httpError 500))
                ⟨[⟨"http", "example.test", "/a", none, none⟩,
                  ⟨"http", "example.test", "/b", none, none⟩], []⟩).2.1
              ([] ++ (outputToSummary (.httpError
                ⟨"http", "example.test", "/a", none, none⟩ 500)).toList)).1)),
        (crawlLoop (fun _ => true) (fun _ => .error (.httpError 500))
          (fun _ => false) (some 500) 0 2
          (crawl_next_url (fun _ => true) (fun _ => .error (.httpError 500))
            ⟨[⟨"http", "example.test", "/a", none, none⟩,
              ⟨"http", "example.test", "/b", none, none⟩], []⟩).2.1
          ([] ++ (outputToSummary (.httpError
            ⟨"http", "example.test", "/a", none, none⟩ 500)).toList)).2) := by
  refine ⟨?_, ?_, ?_⟩
  · rw [crawl_throttling_pause_pattern.1 ⟨1000, 4, some 2⟩ 2 rfl,
      show ⌊(1000 : ℚ) / 2⌋ = 500 by norm_num]
    rfl
  · exact (crawl_throttling_pause_pattern.2.1 (fun _ => .error (.httpError 500))
      (fun _ => false) ⟨"http", "example.test", "/", none, none⟩ (.ok ⟨404, ""⟩)
      "rusty-spider" ⟨1000, 4, none⟩ 3 rfl).2
  · exact crawl_throttling_pause_pattern.2.2 (fun _ => true)
      (fun _ => .error (.httpError 500)) (fun _ => false) 500 0 0
      ⟨[⟨"http", "example.test", "/a", none, none⟩,
        ⟨"http", "example.test", "/b", none, none⟩], []⟩ []
      (.httpError ⟨"http", "example.test", "/a", none, none⟩ 500)
      rfl rfl (by rfl) (by rfl) rfl

end RustySpider
